import Mathlib

/-!
Verification of the statistical decision engine in
`src/smart_decision_engine.py` (class `SmartABTester`).

The dataset (a pandas DataFrame in the source) is embedded as a list of
rows; each row carries the value of the variant column (a string label)
and the value of the metric column (an optional rational, `none` standing
for a null/NaN entry).  Only the two columns the engine reads are
modelled.  Metric values and all statistics are rationals so that every
definition is executable.

The external statistical primitives (scipy / statsmodels / numpy) are not
reimplemented by the source, so they enter the model as an abstract record
`StatPrims` of pure functions, exactly as the spec treats them.  One piece
of documented library behaviour is made explicit because the engine's
error behaviour depends on it: `scipy.stats.shapiro` raises
`ValueError("Data must be at least length 3.")` on samples shorter
than 3; the wrapper `shapiro` models this with `Except`.  Out-of-bounds
numpy indexing (`variants[0]`, `variants[1]` in `analyze_test`) raises
`IndexError`; `getOrErr` models it.  The engine's `self.alpha` field is
passed as an explicit `alpha` argument.
-/

/-- One row of the experiment dataset: the variant label and the
(possibly null) metric value. -/
structure Row where
  variant : String
  metric : Option ℚ
deriving DecidableEq, Repr

/-- The experiment dataset: the rows of the DataFrame in order. -/
abbrev DF := List Row

/-- The external statistical primitives, consumed as pure functions, as in
the source: `stats.chi2.cdf(x, df)`; the Shapiro-Wilk `(stat, pvalue)` pair
for samples of length at least 3; `np.random.choice(data, 5000,
replace=False)` (one fixed draw of the random sampler: uniform selection
without replacement of 5000 elements); `proportions_ztest(count, nobs)`;
`stats.ttest_ind(a, b, equal_var=False)`; and
`stats.mannwhitneyu(a, b, alternative="two-sided")`, the last three
returning `(statistic, pvalue)`. -/
structure StatPrims where
  chi2_cdf : ℚ → ℕ → ℚ
  shapiro_fn : List ℚ → ℚ × ℚ
  choice_noreplace : List ℚ → List ℚ
  ztest : List ℚ → List ℕ → ℚ × ℚ
  ttest_unequal_var : List ℚ → List ℚ → ℚ × ℚ
  mwu_two_sided : List ℚ → List ℚ → ℚ × ℚ

/-- Helper for `uniqueList`: keeps the elements not yet seen, in order. -/
def uniqueAux {α : Type} [DecidableEq α] (seen : List α) : List α → List α
  | [] => []
  | x :: xs => if x ∈ seen then uniqueAux seen xs else x :: uniqueAux (x :: seen) xs

/-- Distinct elements of a list in order of first appearance: the
behaviour of pandas `Series.unique()`. -/
def uniqueList {α : Type} [DecidableEq α] (l : List α) : List α :=
  uniqueAux [] l

deriving instance DecidableEq for Except

/-- `df[variant_col].unique()`: the distinct variant labels in order of
first appearance. -/
def uniqueLabels (df : DF) : List String :=
  uniqueList (df.map (fun r => r.variant))

/-- The rows whose variant label equals `label`
(`df[df[variant_col] == label]`). -/
def rowsOf (df : DF) (label : String) : DF :=
  df.filter (fun r => decide (r.variant = label))

/-- Arm extraction: `df[df[variant_col] == label][metric_col].dropna().values` —
the non-null metric values of the rows carrying `label`, in row order. -/
def armOf (df : DF) (label : String) : List ℚ :=
  (rowsOf df label).filterMap (fun r => r.metric)

/-- Observation counts per distinct variant label
(`df[variant_col].value_counts().values`).  pandas orders the counts by
descending frequency; we list them in first-appearance order of the
labels.  The multiset of counts is the same, and `check_srm` is invariant
under reordering of the count vector (proved below), so every output of
`check_srm` agrees with the source. -/
def countsOf (df : DF) : List ℕ :=
  (uniqueLabels df).map (fun l => (rowsOf df l).length)

/-- `set(df[metric_col].dropna().unique())`: the distinct non-null metric
values of the whole dataset. -/
def uniqueVals (df : DF) : List ℚ :=
  uniqueList (df.filterMap (fun r => r.metric))

/-- The classification test `unique_vals <= set([0, 1])` from
`analyze_test`: every distinct non-null metric value is 0 or 1 (subset
includes the empty set and either singleton). -/
def isBinaryVals (vals : List ℚ) : Bool :=
  vals.all (fun v => decide (v = 0 ∨ v = 1))

/-- Result record of `check_srm`. -/
structure SrmResult where
  chi2 : ℚ
  pvalue : ℚ
  srm_detected : Bool
deriving DecidableEq, Repr

/-- Result record of the three test procedures (before the orchestrator
attaches `metric_type` and `srm`). -/
structure TestResult where
  test : String
  statistic : ℚ
  pvalue : ℚ
  significant : Bool
deriving DecidableEq, Repr

/-- The verdict returned by `analyze_test`: the test-result fields plus
`metric_type` and the embedded SRM record — exactly the six keys of the
returned dict. -/
structure Verdict where
  test : String
  statistic : ℚ
  pvalue : ℚ
  significant : Bool
  metric_type : String
  srm : SrmResult
deriving DecidableEq, Repr

/-- Embedding of the integer count vector into the rationals (numpy
promotes the integer counts to floats when subtracting the mean). -/
def natsToRats (l : List ℕ) : List ℚ :=
  l.map (fun n : ℕ => (n : ℚ))

/-- Length is preserved by the embedding of counts into the rationals. -/
@[simp] lemma natsToRats_length (l : List ℕ) : (natsToRats l).length = l.length :=
  List.length_map l _

/-- `SmartABTester.check_srm`: counts per variant, expected count vector
`np.repeat(np.mean(counts), len(counts))`, Pearson chi-square statistic,
`pvalue = 1 - stats.chi2.cdf(chi2, df=len(counts)-1)`, and
`srm_detected = pvalue < self.alpha`. -/
def check_srm (P : StatPrims) (alpha : ℚ) (df : DF) : SrmResult :=
  let counts : List ℚ := natsToRats (countsOf df)
  let expected : List ℚ := List.replicate counts.length (counts.sum / (counts.length : ℚ))
  let chi2 : ℚ := ((counts.zip expected).map (fun p => (p.1 - p.2) ^ 2 / p.2)).sum
  let pvalue : ℚ := 1 - P.chi2_cdf chi2 (counts.length - 1)
  { chi2 := chi2, pvalue := pvalue, srm_detected := decide (pvalue < alpha) }

/-- `scipy.stats.shapiro`: raises `ValueError("Data must be at least
length 3.")` on samples of fewer than 3 observations (documented scipy
behaviour); otherwise returns the `(statistic, pvalue)` pair supplied by
the abstract primitive. -/
def shapiro (P : StatPrims) (x : List ℚ) : Except String (ℚ × ℚ) :=
  if x.length < 3 then .error "Data must be at least length 3."
  else .ok (P.shapiro_fn x)

/-- `SmartABTester._check_normality`: if the sample has more than 5000
observations, replace it by `np.random.choice(data, 5000, replace=False)`;
run Shapiro-Wilk; return `pvalue > self.alpha`. -/
def check_normality (P : StatPrims) (alpha : ℚ) (data : List ℚ) : Except String Bool :=
  let data' := if 5000 < data.length then P.choice_noreplace data else data
  (shapiro P data').map (fun sp => decide (alpha < sp.2))

/-- `SmartABTester.proportion_test`: successes `[treatment.sum(),
control.sum()]`, observation counts `[len(treatment), len(control)]`,
two-proportion Z-test. -/
def proportion_test (P : StatPrims) (alpha : ℚ) (control treatment : List ℚ) : TestResult :=
  let successes : List ℚ := [treatment.sum, control.sum]
  let nobs : List ℕ := [treatment.length, control.length]
  let sp := P.ztest successes nobs
  { test := "Proportion Z-Test", statistic := sp.1, pvalue := sp.2,
    significant := decide (sp.2 < alpha) }

/-- `SmartABTester.two_sample_ttest`: Welch's t-test on `(treatment,
control)` in that order, `equal_var=False`. -/
def two_sample_ttest (P : StatPrims) (alpha : ℚ) (control treatment : List ℚ) : TestResult :=
  let sp := P.ttest_unequal_var treatment control
  { test := "Two Sample T-Test", statistic := sp.1, pvalue := sp.2,
    significant := decide (sp.2 < alpha) }

/-- `SmartABTester.mann_whitney_u_test`: Mann-Whitney U on `(treatment,
control)` in that order, `alternative="two-sided"`. -/
def mann_whitney_u_test (P : StatPrims) (alpha : ℚ) (control treatment : List ℚ) : TestResult :=
  let sp := P.mwu_two_sided treatment control
  { test := "Mann-Whitney U", statistic := sp.1, pvalue := sp.2,
    significant := decide (sp.2 < alpha) }

/-- numpy array indexing `a[i]`: an out-of-bounds index raises
`IndexError`. -/
def getOrErr (l : List String) (i : ℕ) : Except String String :=
  match l.get? i with
  | some x => .ok x
  | none => .error "IndexError: index out of bounds"

/-- Attaching `result["metric_type"] = tag` and `result["srm"] = srm` to a
test result, as the tail of `analyze_test` does. -/
def withMeta (r : TestResult) (tag : String) (srm : SrmResult) : Verdict :=
  { test := r.test, statistic := r.statistic, pvalue := r.pvalue,
    significant := r.significant, metric_type := tag, srm := srm }

/-- `SmartABTester.analyze_test`: SRM check, arm extraction from the first
two distinct variant labels, metric-type classification on the distinct
non-null metric values of the whole dataset, and dispatch to exactly one
of the three tests. -/
def analyze_test (P : StatPrims) (alpha : ℚ) (df : DF) : Except String Verdict := do
  let srm_result := check_srm P alpha df
  let variants := uniqueLabels df
  let v0 ← getOrErr variants 0
  let v1 ← getOrErr variants 1
  let control := armOf df v0
  let treatment := armOf df v1
  let unique_vals := uniqueVals df
  if isBinaryVals unique_vals then
    return withMeta (proportion_test P alpha control treatment) "binary" srm_result
  else
    let is_normal_control ← check_normality P alpha control
    let is_normal_treatment ← check_normality P alpha treatment
    if is_normal_control && is_normal_treatment then
      return withMeta (two_sample_ttest P alpha control treatment) "continuous_normal" srm_result
    else
      return withMeta (mann_whitney_u_test P alpha control treatment) "continuous_non_normal" srm_result

/-- The classification-and-dispatch stage of `analyze_test` isolated as a
function of the data that feeds it: the distinct metric values driving
classification, and the two arm samples.  Returns the test result paired
with the `metric_type` tag. -/
def classify_dispatch (P : StatPrims) (alpha : ℚ) (unique_vals : List ℚ)
    (control treatment : List ℚ) : Except String (TestResult × String) := do
  if isBinaryVals unique_vals then
    return (proportion_test P alpha control treatment, "binary")
  else
    let is_normal_control ← check_normality P alpha control
    let is_normal_treatment ← check_normality P alpha treatment
    if is_normal_control && is_normal_treatment then
      return (two_sample_ttest P alpha control treatment, "continuous_normal")
    else
      return (mann_whitney_u_test P alpha control treatment, "continuous_non_normal")

/-! ### Helper lemmas -/

/-- Reduction of `Except.bind` on a success value. -/
lemma ebind_ok {ε α β : Type} (a : α) (f : α → Except ε β) :
    (Except.ok a >>= f) = f a := rfl

/-- Reduction of `Except.bind` on an error value. -/
lemma ebind_error {ε α β : Type} (e : ε) (f : α → Except ε β) :
    ((Except.error e : Except ε α) >>= f) = Except.error e := rfl

/-- Reduction of `Except.map` on a success value. -/
lemma emap_ok {ε α β : Type} (f : α → β) (a : α) :
    (Except.ok a : Except ε α).map f = Except.ok (f a) := rfl

/-- Reduction of `Except.map` on an error value. -/
lemma emap_error {ε α β : Type} (f : α → β) (e : ε) :
    (Except.error e : Except ε α).map f = Except.error e := rfl

/-- Reduction of `pure` in the `Except` monad. -/
lemma epure_eq {ε α : Type} (a : α) : (pure a : Except ε α) = Except.ok a := rfl

/-- Summing `(observed - expected)^2 / expected` against the constant
expected vector `replicate l.length m` is summing `(c - m)^2 / m` over the
observed counts. -/
lemma map_zip_replicate_sum (l : List ℚ) (m : ℚ) :
    ∀ n, l.length ≤ n →
      ((l.zip (List.replicate n m)).map (fun p => (p.1 - p.2) ^ 2 / p.2)).sum
        = (l.map (fun c => (c - m) ^ 2 / m)).sum := by
  induction l with
  | nil => intro n _; rfl
  | cons x xs ih =>
    intro n hn
    match n with
    | 0 => simp at hn
    | k + 1 =>
      simp only [List.length_cons, Nat.add_le_add_iff_right] at hn
      simp only [List.replicate_succ, List.zip_cons_cons, List.map_cons, List.sum_cons,
        ih k hn]

/-- With at least two distinct variant labels, `analyze_test` is the
classification/dispatch stage applied to the distinct metric values of the
whole dataset and the arm samples of the first two labels, with the SRM
result of the whole dataset attached. -/
lemma analyze_test_cons (P : StatPrims) (alpha : ℚ) (df : DF) (v0 v1 : String)
    (rest : List String) (hl : uniqueLabels df = v0 :: v1 :: rest) :
    analyze_test P alpha df =
      (classify_dispatch P alpha (uniqueVals df) (armOf df v0) (armOf df v1)).map
        (fun pr => withMeta pr.1 pr.2 (check_srm P alpha df)) := by
  unfold analyze_test classify_dispatch
  rw [hl]
  show ((getOrErr (v0 :: v1 :: rest) 0) >>= _) = _
  simp only [getOrErr, List.get?, ebind_ok]
  by_cases hb : isBinaryVals (uniqueVals df)
  · simp only [hb, if_true, epure_eq, emap_ok]
  · simp only [hb, if_false, Bool.false_eq_true]
    cases hc : check_normality P alpha (armOf df v0) with
    | error e => simp only [ebind_error, emap_error]
    | ok bc =>
      simp only [ebind_ok]
      cases ht : check_normality P alpha (armOf df v1) with
      | error e => simp only [ebind_error, emap_error]
      | ok bt =>
        simp only [ebind_ok]
        cases hbt : bc && bt <;> simp [hbt, epure_eq, emap_ok, withMeta]

/-- With fewer than two distinct variant labels, the numpy indexing
`variants[0]` or `variants[1]` in `analyze_test` is out of bounds. -/
lemma analyze_test_short (P : StatPrims) (alpha : ℚ) (df : DF)
    (h : (uniqueLabels df).length < 2) :
    analyze_test P alpha df = .error "IndexError: index out of bounds" := by
  unfold analyze_test
  match hl : uniqueLabels df with
  | [] => rfl
  | [x] => rfl
  | x :: y :: t => rw [hl] at h; simp at h; omega

/-- A sample of fewer than 3 observations is below the 5000 cutoff, so it
reaches Shapiro-Wilk unmodified and Shapiro-Wilk rejects it. -/
lemma check_normality_short (P : StatPrims) (alpha : ℚ) (data : List ℚ)
    (h : data.length < 3) :
    check_normality P alpha data = .error "Data must be at least length 3." := by
  simp only [check_normality, shapiro]
  have h5 : ¬ 5000 < data.length := by omega
  rw [if_neg h5, if_pos h]
  rfl

/-- The only error `check_normality` can produce is the Shapiro-Wilk
length error. -/
lemma check_normality_cases (P : StatPrims) (alpha : ℚ) (data : List ℚ) (e : String)
    (h : check_normality P alpha data = .error e) :
    e = "Data must be at least length 3." := by
  simp only [check_normality, shapiro] at h
  by_cases h3 : (if 5000 < data.length then P.choice_noreplace data else data).length < 3
  · rw [if_pos h3] at h
    simpa [emap_error] using h.symm
  · rw [if_neg h3] at h
    simp [emap_ok] at h

/-! ### Concrete fixtures used by witnesses and counterexamples -/

/-- A concrete instantiation of the external statistical primitives, used
to evaluate the engine on concrete datasets. -/
def Pex : StatPrims :=
  { chi2_cdf := fun _ _ => 0
    shapiro_fn := fun _ => (0, 1)
    choice_noreplace := fun l => l.take 5000
    ztest := fun _ _ => (0, 1)
    ttest_unequal_var := fun _ _ => (0, 1)
    mwu_two_sided := fun _ _ => (0, 1) }

/-- A second instantiation that differs from `Pex` in the normality-check
primitives (Shapiro-Wilk and the random down-sampler) but agrees on the
rest. -/
def PexAlt : StatPrims :=
  { Pex with shapiro_fn := fun _ => (1, 0), choice_noreplace := fun _ => [] }

/-- Binary dataset with two variants where the control arm has exactly one
non-null observation: variant A carries metric 1; variant B carries 0
and 1. -/
def dfBin : DF := [⟨"A", some 1⟩, ⟨"B", some 0⟩, ⟨"B", some 1⟩]

/-- Continuous dataset with two variants of three non-null observations
each. -/
def dfCont : DF :=
  [⟨"A", some 1⟩, ⟨"A", some 2⟩, ⟨"A", some 3⟩,
   ⟨"B", some 4⟩, ⟨"B", some 5⟩, ⟨"B", some 6⟩]

/-- Continuous dataset with two variants where the control arm has exactly
one non-null observation. -/
def dfShort : DF := [⟨"A", some 5⟩, ⟨"B", some 7⟩, ⟨"B", some 8⟩]

/-- Continuous dataset with three distinct variant labels, one row each. -/
def dfThree : DF := [⟨"A", some 5⟩, ⟨"B", some 7⟩, ⟨"C", some 9⟩]

/-- Dataset with a single distinct variant label (one of its metric values
null). -/
def dfSingle : DF := [⟨"A", some 1⟩, ⟨"A", none⟩]

/-- Dataset with labels A, A, B: per-variant counts (2, 1). -/
def dfPermA : DF := [⟨"A", some 1⟩, ⟨"A", some 2⟩, ⟨"B", some 3⟩]

/-- The same observations with the label order of first appearance
permuted: counts (1, 2). -/
def dfPermB : DF := [⟨"B", some 3⟩, ⟨"A", some 1⟩, ⟨"A", some 2⟩]

/-! ### Claim theorems -/

/-- Claim C3: for every dataset, `check_srm` returns the Pearson statistic
against an expected count equal to the arithmetic mean of the observed
per-variant counts, a p-value of `1 - chi2_cdf(chi2, k - 1)` with `k` the
number of distinct variants, and `srm_detected` exactly when the p-value
is below `alpha`. -/
theorem srm_pearson_mean_formula (P : StatPrims) (alpha : ℚ) (df : DF) :
    (check_srm P alpha df).chi2 =
      ((natsToRats (countsOf df)).map
        (fun c =>
          (c - (natsToRats (countsOf df)).sum / ((countsOf df).length : ℚ)) ^ 2
            / ((natsToRats (countsOf df)).sum / ((countsOf df).length : ℚ)))).sum
    ∧ (check_srm P alpha df).pvalue =
        1 - P.chi2_cdf (check_srm P alpha df).chi2 ((uniqueLabels df).length - 1)
    ∧ ((check_srm P alpha df).srm_detected = true ↔ (check_srm P alpha df).pvalue < alpha) := by
  refine ⟨?_, ?_, ?_⟩
  · simp only [check_srm]
    rw [map_zip_replicate_sum _ _ _ le_rfl]
    simp only [natsToRats_length]
  · simp only [check_srm, countsOf, natsToRats_length, List.length_map]
  · simp only [check_srm, decide_eq_true_eq]

/-- Claim C4: `check_srm` depends on the per-variant counts only through
their multiset: datasets whose count vectors are permutations of one
another receive identical `chi2`, `pvalue` and `srm_detected`. -/
theorem srm_label_order_invariant (P : StatPrims) (alpha : ℚ) (df df' : DF)
    (h : (countsOf df).Perm (countsOf df')) :
    check_srm P alpha df = check_srm P alpha df' := by
  have hq : (natsToRats (countsOf df)).Perm (natsToRats (countsOf df')) := h.map _
  have hlen : (countsOf df).length = (countsOf df').length := h.length_eq
  have hsum : (natsToRats (countsOf df)).sum = (natsToRats (countsOf df')).sum := hq.sum_eq
  simp only [check_srm]
  rw [map_zip_replicate_sum _ _ _ le_rfl, map_zip_replicate_sum _ _ _ le_rfl]
  simp only [natsToRats_length]
  rw [hsum, hlen]
  rw [(hq.map _).sum_eq]

/-- Witness for C4 at a concrete pair of datasets: the same observations
with the two labels' order of first appearance swapped. -/
theorem srm_label_order_invariant_witness :
    (countsOf dfPermA).Perm (countsOf dfPermB)
    ∧ check_srm Pex (1/20) dfPermA = check_srm Pex (1/20) dfPermB :=
  ⟨by decide, srm_label_order_invariant Pex (1/20) dfPermA dfPermB (by decide)⟩

/-- Claim C1: whenever the distinct non-null metric values form a subset
of 0 and 1 (and the dataset has two variant labels to index), the verdict
is the two-proportion Z-test on the two arms with `metric_type = binary`,
and the result does not depend on the normality primitives (Shapiro-Wilk
and the random down-sampler are never invoked): any primitives `P'`
agreeing with `P` on the chi-square CDF and the Z-test give the identical
verdict. -/
theorem binary_dispatch_proportion_ztest (P P' : StatPrims) (alpha : ℚ) (df : DF)
    (v0 v1 : String) (rest : List String)
    (hl : uniqueLabels df = v0 :: v1 :: rest)
    (hb : isBinaryVals (uniqueVals df) = true)
    (hcdf : P'.chi2_cdf = P.chi2_cdf) (hz : P'.ztest = P.ztest) :
    analyze_test P alpha df =
      .ok (withMeta (proportion_test P alpha (armOf df v0) (armOf df v1)) "binary"
        (check_srm P alpha df))
    ∧ (withMeta (proportion_test P alpha (armOf df v0) (armOf df v1)) "binary"
        (check_srm P alpha df)).metric_type = "binary"
    ∧ (withMeta (proportion_test P alpha (armOf df v0) (armOf df v1)) "binary"
        (check_srm P alpha df)).test = "Proportion Z-Test"
    ∧ analyze_test P' alpha df = analyze_test P alpha df := by
  have h1 := analyze_test_cons P alpha df v0 v1 rest hl
  have h2 := analyze_test_cons P' alpha df v0 v1 rest hl
  have hcd : classify_dispatch P alpha (uniqueVals df) (armOf df v0) (armOf df v1)
      = .ok (proportion_test P alpha (armOf df v0) (armOf df v1), "binary") := by
    simp [classify_dispatch, hb, epure_eq]
  have hcd' : classify_dispatch P' alpha (uniqueVals df) (armOf df v0) (armOf df v1)
      = .ok (proportion_test P' alpha (armOf df v0) (armOf df v1), "binary") := by
    simp [classify_dispatch, hb, epure_eq]
  refine ⟨?_, rfl, rfl, ?_⟩
  · rw [h1, hcd]; rfl
  · have hp : proportion_test P' alpha (armOf df v0) (armOf df v1)
        = proportion_test P alpha (armOf df v0) (armOf df v1) := by
      simp [proportion_test, hz]
    have hs : check_srm P' alpha df = check_srm P alpha df := by
      simp [check_srm, hcdf]
    rw [h1, h2, hcd, hcd', emap_ok, emap_ok, hp, hs]

/-- Witness for C1 at a concrete binary two-variant dataset, with a second
primitive record differing in the normality primitives. -/
theorem binary_dispatch_proportion_ztest_witness :
    analyze_test Pex 0 dfBin =
      .ok (withMeta (proportion_test Pex 0 (armOf dfBin "A") (armOf dfBin "B")) "binary"
        (check_srm Pex 0 dfBin))
    ∧ (withMeta (proportion_test Pex 0 (armOf dfBin "A") (armOf dfBin "B")) "binary"
        (check_srm Pex 0 dfBin)).metric_type = "binary"
    ∧ (withMeta (proportion_test Pex 0 (armOf dfBin "A") (armOf dfBin "B")) "binary"
        (check_srm Pex 0 dfBin)).test = "Proportion Z-Test"
    ∧ analyze_test PexAlt 0 dfBin = analyze_test Pex 0 dfBin :=
  binary_dispatch_proportion_ztest Pex PexAlt 0 dfBin "A" "B" []
    (by decide) (by decide) rfl rfl

/-- Claim C2: when the distinct metric values are not a subset of 0 and 1,
the normality sub-check runs independently on both arms; both passing
selects Welch's t-test with `metric_type = continuous_normal`, any other
combination selects Mann-Whitney U with
`metric_type = continuous_non_normal`. -/
theorem continuous_dispatch_by_normality (P : StatPrims) (alpha : ℚ) (df : DF)
    (v0 v1 : String) (rest : List String) (bc bt : Bool)
    (hl : uniqueLabels df = v0 :: v1 :: rest)
    (hnb : isBinaryVals (uniqueVals df) = false)
    (hc : check_normality P alpha (armOf df v0) = .ok bc)
    (ht : check_normality P alpha (armOf df v1) = .ok bt) :
    analyze_test P alpha df =
      .ok (withMeta
        (if bc && bt then two_sample_ttest P alpha (armOf df v0) (armOf df v1)
          else mann_whitney_u_test P alpha (armOf df v0) (armOf df v1))
        (if bc && bt then "continuous_normal" else "continuous_non_normal")
        (check_srm P alpha df)) := by
  rw [analyze_test_cons P alpha df v0 v1 rest hl]
  simp only [classify_dispatch, hnb, Bool.false_eq_true, if_false, hc, ebind_ok, ht]
  cases hbt : bc && bt
  · simp [hbt, epure_eq, emap_ok, withMeta]
  · simp [hbt, epure_eq, emap_ok, withMeta]

/-- Witness for C2 at a concrete continuous dataset whose two arms both
pass the normality sub-check under `Pex`. -/
theorem continuous_dispatch_by_normality_witness :
    analyze_test Pex 0 dfCont =
      .ok (withMeta (two_sample_ttest Pex 0 (armOf dfCont "A") (armOf dfCont "B"))
        "continuous_normal" (check_srm Pex 0 dfCont)) :=
  continuous_dispatch_by_normality Pex 0 dfCont "A" "B" [] true true
    (by decide) (by decide) (by decide) (by decide)

/-- Claim C5: with fewer than two distinct variant labels, `analyze_test`
fails with the (IndexError) of indexing the missing variant instead of
returning a verdict. -/
theorem insufficient_variants_error (P : StatPrims) (alpha : ℚ) (df : DF)
    (h : (uniqueLabels df).length < 2) :
    analyze_test P alpha df = .error "IndexError: index out of bounds" :=
  analyze_test_short P alpha df h

/-- Witness for C5 at a concrete one-variant dataset. -/
theorem insufficient_variants_error_witness :
    (uniqueLabels dfSingle).length < 2
    ∧ analyze_test Pex 0 dfSingle = .error "IndexError: index out of bounds" :=
  ⟨by decide, insufficient_variants_error Pex 0 dfSingle (by decide)⟩

/-- Counterexample to claim C6 as stated: in the binary branch an arm with
exactly one non-null observation does not raise — `analyze_test` silently
returns a computed proportion-test verdict. -/
theorem small_arm_counterexample :
    (armOf dfBin "A").length = 1
    ∧ uniqueLabels dfBin = ["A", "B"]
    ∧ analyze_test Pex 0 dfBin
        = .ok (withMeta (proportion_test Pex 0 (armOf dfBin "A") (armOf dfBin "B")) "binary"
            (check_srm Pex 0 dfBin)) := by
  refine ⟨by decide, by decide, ?_⟩
  rw [analyze_test_cons Pex 0 dfBin "A" "B" [] (by decide)]
  have hb : isBinaryVals (uniqueVals dfBin) = true := by decide
  simp [classify_dispatch, hb, epure_eq, emap_ok, withMeta]

/-- Amended claim C6: when one arm has fewer than two non-null
observations, `analyze_test` errors exactly on the continuous branch
(Shapiro-Wilk rejects samples shorter than 3); on the binary branch it
silently computes a proportion-test verdict regardless of arm size. -/
theorem small_arm_errors_continuous_only (P : StatPrims) (alpha : ℚ) (df : DF)
    (v0 v1 : String) (rest : List String)
    (hl : uniqueLabels df = v0 :: v1 :: rest)
    (hsmall : (armOf df v0).length < 2 ∨ (armOf df v1).length < 2) :
    (isBinaryVals (uniqueVals df) = false →
      analyze_test P alpha df = .error "Data must be at least length 3.")
    ∧ (isBinaryVals (uniqueVals df) = true →
      analyze_test P alpha df =
        .ok (withMeta (proportion_test P alpha (armOf df v0) (armOf df v1)) "binary"
          (check_srm P alpha df))) := by
  constructor
  · intro hnb
    rw [analyze_test_cons P alpha df v0 v1 rest hl]
    simp only [classify_dispatch, hnb, Bool.false_eq_true, if_false]
    rcases hsmall with hs | hs
    · rw [check_normality_short P alpha _ (by omega), ebind_error, emap_error]
    · cases hc : check_normality P alpha (armOf df v0) with
      | error e =>
        rw [ebind_error, emap_error, check_normality_cases P alpha _ e hc]
      | ok bc =>
        rw [ebind_ok, check_normality_short P alpha _ (by omega), ebind_error, emap_error]
  · intro hb
    rw [analyze_test_cons P alpha df v0 v1 rest hl]
    simp [classify_dispatch, hb, epure_eq, emap_ok, withMeta]

/-- Witness for the amended C6: a continuous dataset with a one-element
arm errors; a binary dataset with a one-element arm returns a verdict. -/
theorem small_arm_errors_continuous_only_witness :
    (armOf dfShort "A").length < 2
    ∧ analyze_test Pex 0 dfShort = .error "Data must be at least length 3."
    ∧ (armOf dfBin "A").length < 2
    ∧ analyze_test Pex 0 dfBin
        = .ok (withMeta (proportion_test Pex 0 (armOf dfBin "A") (armOf dfBin "B")) "binary"
            (check_srm Pex 0 dfBin)) :=
  ⟨by decide,
   (small_arm_errors_continuous_only Pex 0 dfShort "A" "B" [] (by decide)
      (Or.inl (by decide))).1 (by decide),
   by decide,
   (small_arm_errors_continuous_only Pex 0 dfBin "A" "B" [] (by decide)
      (Or.inl (by decide))).2 (by decide)⟩

/-- Claim C7: every dispatched test receives the treatment arm first and
the control arm second: the proportion test passes successes and
observation counts treatment-first, and the t-test and Mann-Whitney calls
pass `(treatment, control)` in that order. -/
theorem treatment_first_argument_order (P : StatPrims) (alpha : ℚ)
    (control treatment : List ℚ) :
    proportion_test P alpha control treatment =
      { test := "Proportion Z-Test",
        statistic := (P.ztest [treatment.sum, control.sum] [treatment.length, control.length]).1,
        pvalue := (P.ztest [treatment.sum, control.sum] [treatment.length, control.length]).2,
        significant :=
          decide ((P.ztest [treatment.sum, control.sum]
            [treatment.length, control.length]).2 < alpha) }
    ∧ two_sample_ttest P alpha control treatment =
      { test := "Two Sample T-Test",
        statistic := (P.ttest_unequal_var treatment control).1,
        pvalue := (P.ttest_unequal_var treatment control).2,
        significant := decide ((P.ttest_unequal_var treatment control).2 < alpha) }
    ∧ mann_whitney_u_test P alpha control treatment =
      { test := "Mann-Whitney U",
        statistic := (P.mwu_two_sided treatment control).1,
        pvalue := (P.mwu_two_sided treatment control).2,
        significant := decide ((P.mwu_two_sided treatment control).2 < alpha) } :=
  ⟨rfl, rfl, rfl⟩

/-- Claim C8: the normality sub-check returns true iff the Shapiro-Wilk
p-value strictly exceeds `alpha`; samples of more than 5000 observations
are first replaced by the `np.random.choice(data, 5000, replace=False)`
draw, samples of at most 5000 are tested unmodified. -/
theorem normality_downsample_threshold (P : StatPrims) (alpha : ℚ) (data : List ℚ) :
    (data.length ≤ 5000 →
      check_normality P alpha data = (shapiro P data).map (fun sp => decide (alpha < sp.2)))
    ∧ (5000 < data.length →
      check_normality P alpha data =
        (shapiro P (P.choice_noreplace data)).map (fun sp => decide (alpha < sp.2))) := by
  constructor
  · intro h
    simp only [check_normality]
    rw [if_neg (by omega)]
  · intro h
    simp only [check_normality]
    rw [if_pos h]

/-- Witness for C8 at a concrete small sample. -/
theorem normality_downsample_threshold_witness :
    [(1:ℚ), 2, 3].length ≤ 5000
    ∧ check_normality Pex 0 [(1:ℚ), 2, 3]
        = (shapiro Pex [(1:ℚ), 2, 3]).map (fun sp => decide ((0:ℚ) < sp.2)) :=
  ⟨by decide, (normality_downsample_threshold Pex 0 [(1:ℚ), 2, 3]).1 (by decide)⟩

/-- Claim C9: every verdict `analyze_test` returns embeds, under its `srm`
field, exactly the result of `check_srm` on the same dataset, in every
branch. -/
theorem verdict_embeds_srm (P : StatPrims) (alpha : ℚ) (df : DF) (v : Verdict)
    (h : analyze_test P alpha df = .ok v) :
    v.srm = check_srm P alpha df := by
  rcases hl : uniqueLabels df with _ | ⟨v0, _ | ⟨v1, rest⟩⟩
  · rw [analyze_test_short P alpha df (by simp [hl])] at h
    simp at h
  · rw [analyze_test_short P alpha df (by simp [hl])] at h
    simp at h
  · rw [analyze_test_cons P alpha df v0 v1 rest hl] at h
    cases hcd : classify_dispatch P alpha (uniqueVals df) (armOf df v0) (armOf df v1) with
    | error e => rw [hcd, emap_error] at h; simp at h
    | ok pr =>
      rw [hcd, emap_ok] at h
      simp only [Except.ok.injEq] at h
      rw [← h]
      rfl

/-- Witness for C9 at a concrete binary dataset, with the verdict spelled
out. -/
theorem verdict_embeds_srm_witness :
    (⟨"Proportion Z-Test", 0, 1, false, "binary", ⟨1/3, 1, false⟩⟩ : Verdict).srm
      = check_srm Pex 0 dfBin :=
  verdict_embeds_srm Pex 0 dfBin _ (by
    simp +decide [analyze_test, check_srm, countsOf, uniqueLabels, uniqueList, uniqueAux,
      rowsOf, armOf, uniqueVals, isBinaryVals, getOrErr, withMeta, proportion_test,
      bind, Except.bind, pure, Except.pure, dfBin, Pex, natsToRats, List.singleton]
    norm_num)

/-- Counterexample to claim C10 as stated: a dataset with three distinct
variant labels on which `analyze_test` does fail (the first arm has one
observation and the metric is continuous, so Shapiro-Wilk errors). -/
theorem extra_variants_counterexample :
    2 < (uniqueLabels dfThree).length
    ∧ analyze_test Pex 0 dfThree = .error "Data must be at least length 3." := by
  refine ⟨by decide, ?_⟩
  rw [analyze_test_cons Pex 0 dfThree "A" "B" ["C"] (by decide)]
  have hnb : isBinaryVals (uniqueVals dfThree) = false := by decide
  simp only [classify_dispatch, hnb, Bool.false_eq_true, if_false]
  rw [check_normality_short Pex 0 _ (by decide), ebind_error, emap_error]

/-- Amended claim C10: with more than two distinct variant labels,
`analyze_test` raises no error on account of the extra labels — it is
exactly the classification/dispatch pipeline applied to the arms of the
first two labels in order of first appearance, with classification driven
by the distinct non-null metric values of all rows and the SRM check
spanning all distinct variants (it can still fail only where any
two-variant dataset can: inside the normality primitive). -/
theorem extra_variants_first_two (P : StatPrims) (alpha : ℚ) (df : DF)
    (v0 v1 v2 : String) (rest : List String)
    (hl : uniqueLabels df = v0 :: v1 :: v2 :: rest) :
    analyze_test P alpha df =
      (classify_dispatch P alpha (uniqueVals df) (armOf df v0) (armOf df v1)).map
        (fun pr => withMeta pr.1 pr.2 (check_srm P alpha df)) :=
  analyze_test_cons P alpha df v0 v1 (v2 :: rest) hl

/-- Witness for the amended C10 at a concrete three-variant dataset. -/
theorem extra_variants_first_two_witness :
    analyze_test Pex 0 dfThree =
      (classify_dispatch Pex 0 (uniqueVals dfThree)
        (armOf dfThree "A") (armOf dfThree "B")).map
        (fun pr => withMeta pr.1 pr.2 (check_srm Pex 0 dfThree)) :=
  extra_variants_first_two Pex 0 dfThree "A" "B" "C" [] (by decide)
